import Mathlib

/-!
Shallow embedding of the switch-polling / debounce / edge-dispatch engine of
src/TinyG2/switch.cpp (switch registry, single-switch update `read_switch`,
whole-registry `poll_switches`, default leading-edge escalation `_do_feedhold`,
registry initialization `switch_init`, and `get_switch_mode`).

Hardware collaborators are made explicit: the tick source (GetTickCount) and
the externally shared motion-cycle record `cm` plus the indicator LED are
threaded as an explicit environment; the pin-read primitive becomes a raw
sample argument.  Bound callback function pointers are modelled by the closed
set of actions that exist in the translation unit (`_no_action`,
`_do_feedhold`), and each call of the single-switch update additionally
returns the list of callback slots it invoked, in invocation order.
-/

namespace G2Switch

/-- Modelled from the spec: switch.h is not under src/.  Wiring-type codes.
The numeric values are forced by the source itself: `read_switch` corrects
polarity with `pin_value ^ (s->type ^ 1)`, the file header comment says a
normally-open switch triggers on the falling pin edge (raw 1 -> 0 is the
closing transition), and the spec's polarity table (raw 0 on a normally-open
switch means logically closed) agrees only with NO = 0, NC = 1. -/
def SW_NORMALLY_OPEN : Nat := 0

/-- Modelled from the spec: normally-closed wiring code, see SW_NORMALLY_OPEN. -/
def SW_NORMALLY_CLOSED : Nat := 1

/-- Modelled from the spec: switch.h is not under src/. Mode code for a
disabled switch; disabled is the mode without any of the homing/limit
bit-flags set. -/
def SW_MODE_DISABLED : Nat := 0

/-- Modelled from the spec: homing bit-flag of the `mode` field. -/
def SW_HOMING_BIT : Nat := 1

/-- Modelled from the spec: limit bit-flag of the `mode` field, tested by
`_do_feedhold` with `s->mode & SW_LIMIT_BIT`. -/
def SW_LIMIT_BIT : Nat := 2

/-- Logically-open switch state; `read_switch` normalizes so that 0 is open.
(`switch_init` writes `s->state = false`.) -/
def SW_OPEN : Nat := 0

/-- Logically-closed switch state; `read_switch` normalizes so that 1 is closed. -/
def SW_CLOSED : Nat := 1

/-- Edge classification: no edge (value from switch.h, absent from src/;
only distinctness of the three codes is ever used). -/
def SW_NO_EDGE : Nat := 0

/-- Edge classification: leading edge (transition into closed). -/
def SW_LEADING : Nat := 1

/-- Edge classification: trailing edge (transition into open). -/
def SW_TRAILING : Nat := 2

/-- Modelled from the spec: the fixed default debounce quantum
SW_LOCKOUT_TICKS from switch.h (absent from src/); the claims never depend
on its numeric value. -/
def SW_LOCKOUT_TICKS : Nat := 25

/-- Number of axes (switch pairs); poll_switches enumerates axes X..C. -/
def SW_PAIRS : Nat := 6

/-- Positions per axis; poll_switches enumerates min and max per axis. -/
def SW_POSITIONS : Nat := 2

/-- Modelled from the spec: the cycle-state code CYCLE_HOMING from
canonical_machine.h (absent from src/); `_do_feedhold` only ever compares
`cm.cycle_state` against it for equality, so its numeric value is immaterial. -/
def CYCLE_HOMING : Nat := 3

/-- Modulus of the uint32 tick arithmetic used for `debounce_timeout`. -/
def UINT32_MOD : Nat := 2 ^ 32

/-- The callback functions that exist in the translation unit and can be
bound to a switch's action slots: `_no_action` and `_do_feedhold`. -/
inductive SwAction where
  | no_action : SwAction
  | do_feedhold : SwAction
deriving Repr, DecidableEq

/-- One switch record (struct swSwitch): wiring `type`, configuration `mode`,
debounced `state`, transient `edge`, the lockout quantum `debounce_ticks`,
the absolute lockout timestamp `debounce_timeout`, and the four bound action
slots. -/
structure Switch where
  type : Nat
  mode : Nat
  state : Nat
  edge : Nat
  debounce_ticks : Nat
  debounce_timeout : Nat
  when_open : SwAction
  when_closed : SwAction
  on_leading : SwAction
  on_trailing : SwAction
deriving Repr, DecidableEq

/-- The externally shared motion-cycle record `cm`: the readable cycle state
and the two writable request flags. -/
structure CM where
  cycle_state : Nat
  request_feedhold : Bool
  limit_flag : Bool
deriving Repr, DecidableEq

/-- External environment of one call: the tick counter (GetTickCount), the
motion-cycle record `cm`, and the indicator LED state (IndicatorLed). -/
structure Env where
  tick : Nat
  cm : CM
  indicator_led : Bool
deriving Repr, DecidableEq

/-- The escalation action `_do_feedhold`: toggle the indicator LED; when the
cycle state is homing, request a feedhold regardless of the switch's mode;
otherwise set the limit flag when the switch's mode has the limit bit. -/
def do_feedhold (s : Switch) (env : Env) : Env :=
  let env1 : Env := { env with indicator_led := !env.indicator_led }
  if env1.cm.cycle_state = CYCLE_HOMING then
    { env1 with cm := { env1.cm with request_feedhold := true } }
  else if s.mode &&& SW_LIMIT_BIT ≠ 0 then
    { env1 with cm := { env1.cm with limit_flag := true } }
  else
    env1

/-- Apply a bound action (`_no_action` does nothing; `_do_feedhold` as above). -/
def runAction : SwAction → Switch → Env → Env
  | SwAction.no_action, _, env => env
  | SwAction.do_feedhold, s, env => do_feedhold s env

/-- Which callback slot of a switch was invoked (for the invocation trace). -/
inductive SwEvent where
  | when_open_ev : SwEvent
  | when_closed_ev : SwEvent
  | on_leading_ev : SwEvent
  | on_trailing_ev : SwEvent
deriving Repr, DecidableEq

/-- Result of one `read_switch` call: the returned flag, the updated switch
record, the updated environment, and the callback invocation trace. -/
structure RSResult where
  changed : Bool
  sw : Switch
  env : Env
  events : List SwEvent
deriving Repr, DecidableEq

/-- The polarity correction of `read_switch`:
`pin_sense_corrected = pin_value ^ (s->type ^ 1)`. -/
def pin_sense_corrected (s : Switch) (pin_value : Nat) : Nat :=
  pin_value ^^^ (s.type ^^^ 1)

/-- Environment effect of the steady-state branch of `read_switch`: the two
sequential tests `if (s->state == SW_OPEN)` and `if (s->state == SW_CLOSED)`. -/
def steadyEnv (s : Switch) (env : Env) : Env :=
  let env1 := if s.state = SW_OPEN then runAction s.when_open s env else env
  if s.state = SW_CLOSED then runAction s.when_closed s env1 else env1

/-- Invocation trace of the steady-state branch of `read_switch`. -/
def steadyEvents (s : Switch) : List SwEvent :=
  (if s.state = SW_OPEN then [SwEvent.when_open_ev] else []) ++
    (if s.state = SW_CLOSED then [SwEvent.when_closed_ev] else [])

/-- Environment effect of the edge branch of `read_switch`: the two
sequential tests `if (s->edge == SW_LEADING)` and `if (s->edge == SW_TRAILING)`,
run on the already-updated switch record. -/
def edgeEnv (s : Switch) (env : Env) : Env :=
  let env1 := if s.edge = SW_LEADING then runAction s.on_leading s env else env
  if s.edge = SW_TRAILING then runAction s.on_trailing s env1 else env1

/-- Invocation trace of the edge branch of `read_switch`. -/
def edgeEvents (s : Switch) : List SwEvent :=
  (if s.edge = SW_LEADING then [SwEvent.on_leading_ev] else []) ++
    (if s.edge = SW_TRAILING then [SwEvent.on_trailing_ev] else [])

/-- The single-switch update `read_switch` (switch.cpp lines 123-149):
disabled guard, polarity correction, steady-state branch, debounce lockout
test, then acceptance: store the corrected state, arm
`debounce_timeout = GetTickCount() + debounce_ticks` (uint32), classify the
edge from the new state, run the matching edge callback, return true. -/
def read_switch (s : Switch) (env : Env) (pin_value : Nat) : RSResult :=
  if s.mode = SW_MODE_DISABLED then ⟨false, s, env, []⟩
  else if pin_sense_corrected s pin_value = s.state then
    ⟨false, s, steadyEnv s env, steadyEvents s⟩
  else if s.debounce_timeout ≠ 0 ∧ s.debounce_timeout > env.tick then
    ⟨false, s, env, []⟩
  else
    let s2 : Switch :=
      { s with
        state := pin_sense_corrected s pin_value,
        debounce_timeout := (env.tick + s.debounce_ticks) % UINT32_MOD,
        edge :=
          if pin_sense_corrected s pin_value = SW_OPEN then SW_TRAILING
          else SW_LEADING }
    ⟨true, s2, edgeEnv s2 env, edgeEvents s2⟩

/-- The switch registry `switches_t sw`: the process-wide default wiring
`type` plus the fixed axis-by-position table of switch records. -/
structure Switches where
  type : Nat
  s : Fin SW_PAIRS → Fin SW_POSITIONS → Switch

/-- Body of the `switch_init` loop for one slot: propagate the global wiring
type, clear state/edge/timeout, set the default lockout quantum, and bind the
callbacks; `mode` is deliberately not written (commented out in the source:
set from configuration). -/
def init_slot (g_type : Nat) (s : Switch) : Switch :=
  { s with
    type := g_type,
    state := SW_OPEN,
    edge := SW_NO_EDGE,
    debounce_ticks := SW_LOCKOUT_TICKS,
    debounce_timeout := 0,
    when_open := SwAction.no_action,
    when_closed := SwAction.no_action,
    on_leading := SwAction.do_feedhold,
    on_trailing := SwAction.no_action }

/-- The registry initialization `switch_init` (switch.cpp lines 63-93): runs
`init_slot` on every axis/position slot. -/
def switch_init (g : Switches) : Switches :=
  { g with s := fun axis position => init_slot g.type (g.s axis position) }

/-- Axis index AXIS_X. -/
def AXIS_X : Fin SW_PAIRS := ⟨0, by decide⟩

/-- Axis index AXIS_Y. -/
def AXIS_Y : Fin SW_PAIRS := ⟨1, by decide⟩

/-- Axis index AXIS_Z. -/
def AXIS_Z : Fin SW_PAIRS := ⟨2, by decide⟩

/-- Axis index AXIS_A. -/
def AXIS_A : Fin SW_PAIRS := ⟨3, by decide⟩

/-- Axis index AXIS_B. -/
def AXIS_B : Fin SW_PAIRS := ⟨4, by decide⟩

/-- Axis index AXIS_C. -/
def AXIS_C : Fin SW_PAIRS := ⟨5, by decide⟩

/-- Position index SW_MIN. -/
def SW_MIN : Fin SW_POSITIONS := ⟨0, by decide⟩

/-- Position index SW_MAX. -/
def SW_MAX : Fin SW_POSITIONS := ⟨1, by decide⟩

/-- Replace one slot of the registry table. -/
def setSlot (g : Switches) (axis : Fin SW_PAIRS) (position : Fin SW_POSITIONS)
    (s : Switch) : Switches :=
  { g with s := fun a p => if a = axis ∧ p = position then s else g.s a p }

/-- One `read_switch(&sw.s[axis][position], pin)` call inside
`poll_switches`, threading the registry and the environment; `pins` is the
opaque per-slot pin-read primitive. -/
def pollOne (pins : Fin SW_PAIRS → Fin SW_POSITIONS → Nat)
    (acc : Switches × Env) (slot : Fin SW_PAIRS × Fin SW_POSITIONS) :
    Switches × Env :=
  let r := read_switch (acc.1.s slot.1 slot.2) acc.2 (pins slot.1 slot.2)
  (setSlot acc.1 slot.1 slot.2 r.sw, r.env)

/-- The whole-registry poll `poll_switches` (switch.cpp lines 98-113): the
twelve `read_switch` calls in source order, then `return (false)`. -/
def poll_switches (g : Switches) (env : Env)
    (pins : Fin SW_PAIRS → Fin SW_POSITIONS → Nat) :
    Bool × Switches × Env :=
  let a1 := pollOne pins (g, env) (AXIS_X, SW_MIN)
  let a2 := pollOne pins a1 (AXIS_X, SW_MAX)
  let a3 := pollOne pins a2 (AXIS_Y, SW_MIN)
  let a4 := pollOne pins a3 (AXIS_Y, SW_MAX)
  let a5 := pollOne pins a4 (AXIS_Z, SW_MIN)
  let a6 := pollOne pins a5 (AXIS_Z, SW_MAX)
  let a7 := pollOne pins a6 (AXIS_A, SW_MIN)
  let a8 := pollOne pins a7 (AXIS_A, SW_MAX)
  let a9 := pollOne pins a8 (AXIS_B, SW_MIN)
  let a10 := pollOne pins a9 (AXIS_B, SW_MAX)
  let a11 := pollOne pins a10 (AXIS_C, SW_MIN)
  let a12 := pollOne pins a11 (AXIS_C, SW_MAX)
  (false, a12)

/-- The slot visiting order of `poll_switches`, as a list: axis-major
(X, Y, Z, A, B, C), position-minor (min before max). -/
def orderedSlots : List (Fin SW_PAIRS × Fin SW_POSITIONS) :=
  [(AXIS_X, SW_MIN), (AXIS_X, SW_MAX),
   (AXIS_Y, SW_MIN), (AXIS_Y, SW_MAX),
   (AXIS_Z, SW_MIN), (AXIS_Z, SW_MAX),
   (AXIS_A, SW_MIN), (AXIS_A, SW_MAX),
   (AXIS_B, SW_MIN), (AXIS_B, SW_MAX),
   (AXIS_C, SW_MIN), (AXIS_C, SW_MAX)]

/-- `get_switch_mode` (switch.cpp line 169): returns 0 for every switch
number.  The registry is passed explicitly (in the source it is ambient
global state) to make the function's independence from it statable. -/
def get_switch_mode (g : Switches) (sw_num : Nat) : Nat := 0

/-- A sample normally-open limit switch used to instantiate theorems. -/
def sampleNO : Switch :=
  { type := SW_NORMALLY_OPEN,
    mode := SW_LIMIT_BIT,
    state := SW_OPEN,
    edge := SW_NO_EDGE,
    debounce_ticks := 50,
    debounce_timeout := 0,
    when_open := SwAction.no_action,
    when_closed := SwAction.no_action,
    on_leading := SwAction.do_feedhold,
    on_trailing := SwAction.no_action }

/-- A sample normally-closed switch used to instantiate theorems. -/
def sampleNC : Switch := { sampleNO with type := SW_NORMALLY_CLOSED }

/-- A sample environment outside a homing cycle. -/
def envIdle : Env :=
  { tick := 30,
    cm := { cycle_state := 0, request_feedhold := false, limit_flag := false },
    indicator_led := false }

/-- A sample environment inside a homing cycle. -/
def envHoming : Env :=
  { envIdle with cm := { envIdle.cm with cycle_state := CYCLE_HOMING } }

/-- A sample zero-filled registry: the C++ static object `switches_t sw` is
zero-initialized before `switch_init` runs, so every mode starts at 0. -/
def swStartup : Switches :=
  { type := SW_NORMALLY_OPEN,
    s := fun _ _ =>
      { type := 0, mode := 0, state := 0, edge := 0, debounce_ticks := 0,
        debounce_timeout := 0, when_open := SwAction.no_action,
        when_closed := SwAction.no_action, on_leading := SwAction.no_action,
        on_trailing := SwAction.no_action } }

/-- C6: a switch with mode = disabled never changes: every call of
`read_switch`, for any pin sample and any tick, returns false, leaves the
whole switch record and the environment unchanged, and invokes no callback. -/
theorem C6_disabled_inert (s : Switch) (env : Env) (pin_value : Nat)
    (h : s.mode = SW_MODE_DISABLED) :
    read_switch s env pin_value = ⟨false, s, env, []⟩ := by
  simp [read_switch, h]

/-- C6 witness: the theorem instantiated at a concrete disabled switch. -/
theorem C6_disabled_inert_w :
    read_switch { sampleNO with mode := SW_MODE_DISABLED } envIdle 0 =
      ⟨false, { sampleNO with mode := SW_MODE_DISABLED }, envIdle, []⟩ :=
  C6_disabled_inert { sampleNO with mode := SW_MODE_DISABLED } envIdle 0 rfl

/-- C10: `get_switch_mode` returns 0 for every switch number, independently
of the registry contents: it never reports the configured per-switch mode. -/
theorem C10_get_switch_mode_zero (g g' : Switches) (sw_num : Nat) :
    get_switch_mode g sw_num = 0 ∧
    get_switch_mode g sw_num = get_switch_mode g' sw_num :=
  ⟨rfl, rfl⟩

/-- C3: polarity correctness of the correction used by `read_switch`: a
normally-open switch maps raw 0 to closed and raw 1 to open; a
normally-closed switch maps raw 0 to open and raw 1 to closed; the two
wiring types map identical raw samples to opposite logical states. -/
theorem C3_polarity (s t : Switch) :
    (s.type = SW_NORMALLY_OPEN →
      pin_sense_corrected s 0 = SW_CLOSED ∧ pin_sense_corrected s 1 = SW_OPEN) ∧
    (s.type = SW_NORMALLY_CLOSED →
      pin_sense_corrected s 0 = SW_OPEN ∧ pin_sense_corrected s 1 = SW_CLOSED) ∧
    (s.type = SW_NORMALLY_OPEN → t.type = SW_NORMALLY_CLOSED →
      ∀ pin_value : Nat,
        pin_sense_corrected s pin_value ≠ pin_sense_corrected t pin_value) := by
  refine ⟨fun h => ?_, fun h => ?_, fun hs ht pin_value => ?_⟩
  · simp [pin_sense_corrected, h, SW_NORMALLY_OPEN, SW_CLOSED, SW_OPEN]
  · simp [pin_sense_corrected, h, SW_NORMALLY_CLOSED, SW_CLOSED, SW_OPEN]
  · simp only [pin_sense_corrected, hs, ht, SW_NORMALLY_OPEN, SW_NORMALLY_CLOSED]
    intro hcontra
    have h0 : (0 : Nat) ^^^ 1 = 1 ^^^ 1 := Nat.xor_right_inj.mp hcontra
    simp at h0

/-- C3 witness: the theorem instantiated at the sample NO and NC switches. -/
theorem C3_polarity_w :
    (pin_sense_corrected sampleNO 0 = SW_CLOSED ∧
      pin_sense_corrected sampleNO 1 = SW_OPEN) ∧
    (pin_sense_corrected sampleNC 0 = SW_OPEN ∧
      pin_sense_corrected sampleNC 1 = SW_CLOSED) ∧
    pin_sense_corrected sampleNO 0 ≠ pin_sense_corrected sampleNC 0 :=
  ⟨(C3_polarity sampleNO sampleNC).1 rfl,
   (C3_polarity sampleNC sampleNO).2.1 rfl,
   (C3_polarity sampleNO sampleNC).2.2 rfl rfl 0⟩

/-- C4 counterexample: the claim says the corrected sample is the raw sample
XOR 1 for a normally-closed switch and the unmodified raw sample for a
normally-open switch; the code computes the opposite pairing.  At raw sample
0 the claim predicts 0 XOR 1 = 1 for NC and 0 for NO, but `read_switch`'s
correction gives 0 for NC and 1 for NO. -/
theorem C4_formula_cex :
    pin_sense_corrected sampleNC 0 ≠ 0 ^^^ 1 ∧
    pin_sense_corrected sampleNO 0 ≠ 0 := by
  constructor <;> decide

/-- C4 amended: the corrected sample is the raw sample XOR 1 when the
wiring_type is normally-open and the unmodified raw sample when it is
normally-closed; and for binary raw samples the corrected value is always
SW_OPEN (0, logically open) or SW_CLOSED (1, logically closed). -/
theorem C4_corrected_formula (s : Switch) (pin_value : Nat) :
    (s.type = SW_NORMALLY_OPEN →
      pin_sense_corrected s pin_value = pin_value ^^^ 1) ∧
    (s.type = SW_NORMALLY_CLOSED →
      pin_sense_corrected s pin_value = pin_value) ∧
    (pin_value ≤ 1 → s.type ≤ 1 →
      pin_sense_corrected s pin_value = SW_OPEN ∨
        pin_sense_corrected s pin_value = SW_CLOSED) := by
  refine ⟨fun h => ?_, fun h => ?_, fun hp ht => ?_⟩
  · simp [pin_sense_corrected, h, SW_NORMALLY_OPEN]
  · simp [pin_sense_corrected, h, SW_NORMALLY_CLOSED]
  · rcases Nat.le_one_iff_eq_zero_or_eq_one.mp hp with hp0 | hp1 <;>
      rcases Nat.le_one_iff_eq_zero_or_eq_one.mp ht with ht0 | ht1 <;>
      simp [pin_sense_corrected, *, SW_OPEN, SW_CLOSED]

/-- C4 witness: the amended formula instantiated at the sample switches. -/
theorem C4_corrected_formula_w :
    pin_sense_corrected sampleNO 0 = 0 ^^^ 1 ∧
    pin_sense_corrected sampleNC 0 = 0 ∧
    (pin_sense_corrected sampleNO 1 = SW_OPEN ∨
      pin_sense_corrected sampleNO 1 = SW_CLOSED) :=
  ⟨(C4_corrected_formula sampleNO 0).1 rfl,
   (C4_corrected_formula sampleNC 0).2.1 rfl,
   (C4_corrected_formula sampleNO 1).2.2 (by decide) (by decide)⟩

/-- C1: the escalation action `_do_feedhold` always toggles the indicator;
when the cycle state is homing it sets the request-feedhold flag regardless
of the switch's limit bit (and leaves the limit flag alone); when not homing
and the limit bit is set it sets the limit-triggered flag (and leaves the
feedhold flag alone); when not homing and the limit bit is clear the whole
motion-cycle record is untouched — no effect beyond the indicator toggle. -/
theorem C1_do_feedhold_spec (s : Switch) (env : Env) :
    (do_feedhold s env).indicator_led = !env.indicator_led ∧
    (do_feedhold s env).tick = env.tick ∧
    (env.cm.cycle_state = CYCLE_HOMING →
      (do_feedhold s env).cm.request_feedhold = true ∧
      (do_feedhold s env).cm.limit_flag = env.cm.limit_flag ∧
      (do_feedhold s env).cm.cycle_state = env.cm.cycle_state) ∧
    (env.cm.cycle_state ≠ CYCLE_HOMING → s.mode &&& SW_LIMIT_BIT ≠ 0 →
      (do_feedhold s env).cm.limit_flag = true ∧
      (do_feedhold s env).cm.request_feedhold = env.cm.request_feedhold ∧
      (do_feedhold s env).cm.cycle_state = env.cm.cycle_state) ∧
    (env.cm.cycle_state ≠ CYCLE_HOMING → s.mode &&& SW_LIMIT_BIT = 0 →
      (do_feedhold s env).cm = env.cm) := by
  by_cases hc : env.cm.cycle_state = CYCLE_HOMING <;>
    by_cases hm : s.mode &&& SW_LIMIT_BIT = 0 <;>
    simp [do_feedhold, hc, hm]

/-- C1 witness: the theorem applied at three concrete configurations: a
limit switch while homing (feedhold requested), the same switch while idle
(limit flag set), and a non-limit switch while idle (cm untouched). -/
theorem C1_do_feedhold_spec_w :
    (do_feedhold sampleNO envHoming).cm.request_feedhold = true ∧
    (do_feedhold sampleNO envIdle).cm.limit_flag = true ∧
    (do_feedhold { sampleNO with mode := SW_HOMING_BIT } envIdle).cm =
      envIdle.cm ∧
    (do_feedhold sampleNO envIdle).indicator_led = !envIdle.indicator_led :=
  ⟨((C1_do_feedhold_spec sampleNO envHoming).2.2.1 (by decide)).1,
   ((C1_do_feedhold_spec sampleNO envIdle).2.2.2.1 (by decide) (by decide)).1,
   (C1_do_feedhold_spec { sampleNO with mode := SW_HOMING_BIT }
      envIdle).2.2.2.2 (by decide) (by decide),
   (C1_do_feedhold_spec sampleNO envIdle).1⟩

/-- C7: when the corrected sample equals the current logical state,
`read_switch` invokes exactly the matching steady-state callback (once),
invokes no edge callback, changes no switch field, and returns false. -/
theorem C7_steady_state (s : Switch) (env : Env) (pin_value : Nat)
    (hmode : s.mode ≠ SW_MODE_DISABLED)
    (heq : pin_sense_corrected s pin_value = s.state)
    (hbin : s.state = SW_OPEN ∨ s.state = SW_CLOSED) :
    (read_switch s env pin_value).changed = false ∧
    (read_switch s env pin_value).sw = s ∧
    (s.state = SW_OPEN →
      (read_switch s env pin_value).events = [SwEvent.when_open_ev] ∧
      (read_switch s env pin_value).env = runAction s.when_open s env) ∧
    (s.state = SW_CLOSED →
      (read_switch s env pin_value).events = [SwEvent.when_closed_ev] ∧
      (read_switch s env pin_value).env = runAction s.when_closed s env) := by
  rcases hbin with h | h <;>
    simp [read_switch, steadyEnv, steadyEvents, hmode, heq, h,
      SW_OPEN, SW_CLOSED]

/-- C7 witness: a normally-open switch held open (raw sample 1) keeps its
state, reports no change, and fires exactly the open steady callback. -/
theorem C7_steady_state_w :
    (read_switch sampleNO envIdle 1).changed = false ∧
    (read_switch sampleNO envIdle 1).sw = sampleNO ∧
    (read_switch sampleNO envIdle 1).events = [SwEvent.when_open_ev] :=
  ⟨(C7_steady_state sampleNO envIdle 1 (by decide) (by decide) (Or.inl rfl)).1,
   (C7_steady_state sampleNO envIdle 1 (by decide) (by decide) (Or.inl rfl)).2.1,
   ((C7_steady_state sampleNO envIdle 1 (by decide) (by decide)
      (Or.inl rfl)).2.2.1 rfl).1⟩

/-- C2: debounce suppression.  For an enabled switch whose lockout timestamp
is the nonzero value T + D, a call whose corrected sample differs from the
logical state at a tick strictly below T + D returns false and changes
nothing (no callback); at any tick at or above T + D the differing sample is
accepted as a transition (returns true, state becomes the corrected sample). -/
theorem C2_debounce (s : Switch) (env : Env) (pin_value T D : Nat)
    (hmode : s.mode ≠ SW_MODE_DISABLED)
    (hdiff : pin_sense_corrected s pin_value ≠ s.state)
    (hto : s.debounce_timeout = T + D) (hnz : T + D ≠ 0) :
    (env.tick < T + D →
      read_switch s env pin_value = ⟨false, s, env, []⟩) ∧
    (T + D ≤ env.tick →
      (read_switch s env pin_value).changed = true ∧
      (read_switch s env pin_value).sw.state =
        pin_sense_corrected s pin_value) := by
  constructor
  · intro hlt
    have hgt : s.debounce_timeout > env.tick := by omega
    have hne : s.debounce_timeout ≠ 0 := by omega
    simp [read_switch, hmode, hdiff, hne, hgt]
  · intro hge
    have hngt : ¬ s.debounce_timeout > env.tick := by omega
    simp [read_switch, hmode, hdiff, hngt]

/-- C2 witness: the sample switch closed at tick 10 with lockout 50 (lockout
timestamp 60): a differing sample at tick 30 is suppressed unchanged, and at
tick 60 it is accepted. -/
theorem C2_debounce_w :
    read_switch { sampleNO with state := SW_CLOSED, debounce_timeout := 60 }
        envIdle 1 =
      ⟨false, { sampleNO with state := SW_CLOSED, debounce_timeout := 60 },
        envIdle, []⟩ ∧
    (read_switch { sampleNO with state := SW_CLOSED, debounce_timeout := 60 }
        { envIdle with tick := 60 } 1).changed = true :=
  ⟨(C2_debounce { sampleNO with state := SW_CLOSED, debounce_timeout := 60 }
      envIdle 1 10 50 (by decide) (by decide) rfl (by decide)).1 (by decide),
   ((C2_debounce { sampleNO with state := SW_CLOSED, debounce_timeout := 60 }
      { envIdle with tick := 60 } 1 10 50 (by decide) (by decide) rfl
      (by decide)).2 (by decide)).1⟩

/-- C5: an accepted transition returns true, stores the corrected sample as
the new state, classifies the edge as trailing when the new state is open
and leading when it is closed, and invokes exactly the matching edge
callback, exactly once. -/
theorem C5_edge_dispatch (s : Switch) (env : Env) (pin_value : Nat)
    (hmode : s.mode ≠ SW_MODE_DISABLED)
    (hdiff : pin_sense_corrected s pin_value ≠ s.state)
    (hlock : ¬ (s.debounce_timeout ≠ 0 ∧ s.debounce_timeout > env.tick)) :
    (read_switch s env pin_value).changed = true ∧
    (read_switch s env pin_value).sw.state =
      pin_sense_corrected s pin_value ∧
    (pin_sense_corrected s pin_value = SW_OPEN →
      (read_switch s env pin_value).sw.edge = SW_TRAILING ∧
      (read_switch s env pin_value).events = [SwEvent.on_trailing_ev]) ∧
    (pin_sense_corrected s pin_value = SW_CLOSED →
      (read_switch s env pin_value).sw.edge = SW_LEADING ∧
      (read_switch s env pin_value).events = [SwEvent.on_leading_ev]) := by
  refine ⟨?_, ?_, fun hc => ?_, fun hc => ?_⟩
  · simp [read_switch, hmode, hdiff, hlock]
  · simp [read_switch, hmode, hdiff, hlock]
  · have h2 : (0 : Nat) ≠ s.state := fun h => hdiff (hc.trans h)
    simp [read_switch, edgeEvents, hmode, hlock, hc, h2,
      SW_OPEN, SW_LEADING, SW_TRAILING]
  · have h2 : (1 : Nat) ≠ s.state := fun h => hdiff (hc.trans h)
    simp [read_switch, edgeEvents, hmode, hlock, hc, h2,
      SW_OPEN, SW_CLOSED, SW_LEADING, SW_TRAILING]

/-- C5 witness: the sample normally-open switch sampled closed (raw 0) at an
idle tick: the update reports a change with a leading edge and exactly one
leading-edge callback invocation. -/
theorem C5_edge_dispatch_w :
    (read_switch sampleNO envIdle 0).changed = true ∧
    (read_switch sampleNO envIdle 0).sw.edge = SW_LEADING ∧
    (read_switch sampleNO envIdle 0).events = [SwEvent.on_leading_ev] :=
  ⟨(C5_edge_dispatch sampleNO envIdle 0 (by decide) (by decide)
      (by decide)).1,
   ((C5_edge_dispatch sampleNO envIdle 0 (by decide) (by decide)
      (by decide)).2.2.2 (by decide)).1,
   ((C5_edge_dispatch sampleNO envIdle 0 (by decide) (by decide)
      (by decide)).2.2.2 (by decide)).2⟩

/-- C8: `poll_switches` equals the fold of the single-switch update over
`orderedSlots`, so it invokes the update once per slot in exactly that
sequence; `orderedSlots` visits every registry slot exactly once, ordered by
axis and then by position within the axis; and the aggregate return value is
always false, whatever the individual updates returned. -/
theorem C8_poll_all_slots (g : Switches) (env : Env)
    (pins : Fin SW_PAIRS → Fin SW_POSITIONS → Nat) :
    poll_switches g env pins =
      (false, List.foldl (pollOne pins) (g, env) orderedSlots) ∧
    (∀ (a : Fin SW_PAIRS) (p : Fin SW_POSITIONS), (a, p) ∈ orderedSlots) ∧
    orderedSlots.Nodup ∧
    orderedSlots.map (fun q => (q.1.val, q.2.val)) =
      (List.range SW_PAIRS).flatMap (fun a => [(a, 0), (a, 1)]) :=
  ⟨rfl, by decide, by decide, by decide⟩

/-- C9: after `switch_init`, every slot whose mode was disabled beforehand
(as every slot is in the zero-initialized registry at startup) is left
disabled, with the wiring type propagated from the process-wide default,
state open, no edge, zero lockout timestamp, the default lockout quantum,
no-op steady-state and trailing-edge callbacks, and the escalation action
bound to the leading edge. -/
theorem C9_switch_init_defaults (g : Switches)
    (hdis : ∀ (a : Fin SW_PAIRS) (p : Fin SW_POSITIONS),
      (g.s a p).mode = SW_MODE_DISABLED) :
    ∀ (a : Fin SW_PAIRS) (p : Fin SW_POSITIONS),
      (switch_init g).s a p =
        { type := g.type, mode := SW_MODE_DISABLED, state := SW_OPEN,
          edge := SW_NO_EDGE, debounce_ticks := SW_LOCKOUT_TICKS,
          debounce_timeout := 0, when_open := SwAction.no_action,
          when_closed := SwAction.no_action,
          on_leading := SwAction.do_feedhold,
          on_trailing := SwAction.no_action } := by
  intro a p
  simp [switch_init, init_slot, hdis a p]

/-- C9 witness: the theorem applied to the zero-initialized startup
registry, evaluated at the first slot. -/
theorem C9_switch_init_defaults_w :
    (switch_init swStartup).s AXIS_X SW_MIN =
      { type := swStartup.type, mode := SW_MODE_DISABLED, state := SW_OPEN,
        edge := SW_NO_EDGE, debounce_ticks := SW_LOCKOUT_TICKS,
        debounce_timeout := 0, when_open := SwAction.no_action,
        when_closed := SwAction.no_action,
        on_leading := SwAction.do_feedhold,
        on_trailing := SwAction.no_action } :=
  C9_switch_init_defaults swStartup (fun _ _ => rfl) AXIS_X SW_MIN

end G2Switch
